import Mathlib

/-!
Shallow embedding of the water-tank monitoring firmware
(repository `HCR04-ATMEGA328P-WATERSENSOR-BAREMETAL-CODE`).

The repository contains several firmware variants with a shared structure:
* `src/src/main.cpp` — Arduino Mega 2560, Timer5 input capture, 3-slot
  distance ring buffer (`get_filtered_distance`), LED/buzzer panel;
* `src/unnamed/part_000` — ATmega328P (Uno), Timer1 input capture,
  no filter buffer, inverted water-threshold comparison;
* `src/unnamed/part_001` — Mega variant of `main.cpp` plus a status enum,
  alert flag and Bluetooth telemetry;
* `src/unnamed/part_002` — Mega variant with a configurable tank height
  (UART height command), fill-percentage computation and compact telemetry.

All machine integers are modelled as `Nat` with explicit `% 2^16`
wrapping (`u16`) exactly where the C `uint16_t` arithmetic can wrap.
-/

namespace WaterTank

/-- 16-bit unsigned wraparound, the semantics of `uint16_t` arithmetic. -/
def u16 (n : Nat) : Nat := n % 65536

/-- Elapsed-tick computation of `ISR(TIMER5_CAPT_vect)` in
`src/src/main.cpp` (lines 431-440), also found verbatim in
`part_001` and `part_002`:
`if (pulse_end >= pulse_start) pulse_ticks = pulse_end - pulse_start;`
`else pulse_ticks = (0xFFFF - pulse_start) + pulse_end + 1;`
(all operands are `uint16_t`). -/
def pulse_ticks_mega (pulse_start pulse_end : Nat) : Nat :=
  if pulse_start ≤ pulse_end then
    u16 (pulse_end - pulse_start)
  else
    u16 (0xFFFF - pulse_start + pulse_end + 1)

/-- Elapsed-tick computation of `ISR(TIMER1_CAPT_vect)` in
`src/unnamed/part_000` (lines 144-149); note the absence of the `+ 1`:
`if (pulse_end >= pulse_start) pulse_ticks = pulse_end - pulse_start;`
`else pulse_ticks = (0xFFFF - pulse_start) + pulse_end;`. -/
def pulse_ticks_uno (pulse_start pulse_end : Nat) : Nat :=
  if pulse_start ≤ pulse_end then
    u16 (pulse_end - pulse_start)
  else
    u16 (0xFFFF - pulse_start + pulse_end)

/-- Distance update of `ISR(TIMER5_CAPT_vect)` in `src/src/main.cpp`
(lines 465-492): inclusive validity window 150..23500 µs, distance
`pulse_us / 58` (integer division); outside the window `distance_cm`
is set to 0, which is how the code encodes an invalid sample. -/
def distance_update_mega (pulse_us : Nat) : Nat :=
  if 150 ≤ pulse_us ∧ pulse_us ≤ 23500 then pulse_us / 58 else 0

/-- Distance update of `ISR(TIMER1_CAPT_vect)` in `src/unnamed/part_000`
(lines 154-160): strict window `150 < pulse_us < 23500`, distance
`(pulse_us * 17) / 1000`; outside the window `distance_cm = 0`. -/
def distance_update_uno (pulse_us : Nat) : Nat :=
  if 150 < pulse_us ∧ pulse_us < 23500 then pulse_us * 17 / 1000 else 0

end WaterTank

namespace WaterTank

/-- C1 counterexample: the claim states the elapsed-tick computation of the
capture interrupts returns `(max_tick + 1 - pulse_start) + pulse_end`
whenever `pulse_end < pulse_start`, explicitly including
`start = 65535 / end = 0`.  The Timer1 ISR of `src/unnamed/part_000`
returns `(0xFFFF - pulse_start) + pulse_end` — one tick less: at
`start = 65535, end = 0` it yields 0 while the claimed formula yields 1. -/
theorem C1_pulse_ticks_uno_counterexample :
    pulse_ticks_uno 65535 0 = 0 ∧ 65535 + 1 - 65535 + 0 = 1 := by
  constructor
  · rfl
  · rfl

/-- C1 (amended): for all 16-bit tick pairs, the Timer5 ISRs
(`main.cpp`, `part_001`, `part_002`) compute `end - start` when
`end ≥ start` and `(max_tick + 1 - start) + end` when `end < start`,
exactly as claimed; the Timer1 ISR (`part_000`) computes `end - start`
and `(max_tick - start) + end` respectively — one tick less in the
wraparound case.  Both computations stay in `[0, 65536)`: the result is
never negative (it is a `Nat`) and never an excessively large
elapsed-tick value, and no intermediate `uint16_t` operation wraps. -/
theorem C1_pulse_ticks_wraparound (ps pe : Nat) (hps : ps < 65536)
    (hpe : pe < 65536) :
    (ps ≤ pe → pulse_ticks_mega ps pe = pe - ps ∧
      pulse_ticks_uno ps pe = pe - ps) ∧
    (pe < ps → pulse_ticks_mega ps pe = (65535 + 1 - ps) + pe ∧
      pulse_ticks_uno ps pe = (65535 - ps) + pe) ∧
    pulse_ticks_mega ps pe < 65536 ∧ pulse_ticks_uno ps pe < 65536 := by
  unfold pulse_ticks_mega pulse_ticks_uno u16
  constructor
  · intro h
    rw [if_pos h, if_pos h]
    omega
  constructor
  · intro h
    rw [if_neg (by omega), if_neg (by omega)]
    omega
  · constructor
    · split <;> omega
    · split <;> omega

/-- C1 witness: concrete wrapped cycle `start = 65000`, `end = 500`. -/
theorem C1_pulse_ticks_wraparound_witness :
    pulse_ticks_mega 65000 500 = 1036 ∧ pulse_ticks_uno 65000 500 = 1035 := by
  have h := C1_pulse_ticks_wraparound 65000 500 (by decide) (by decide)
  have h2 := h.2.1 (by decide)
  exact ⟨h2.1.trans (by decide), h2.2.trans (by decide)⟩

/-- C2 counterexample: the claim states (for both cited ISRs) that a pulse
width of exactly 150 µs lies inside the validity window and produces
`distance_cm = 150 / 58 = 2`.  The Timer1 ISR of `src/unnamed/part_000`
uses the strict test `pulse_us > 150`, so at 150 µs it publishes the
invalid sample `distance_cm = 0`. -/
theorem C2_validity_window_counterexample :
    distance_update_uno 150 = 0 ∧ 150 / 58 = 2 := by
  constructor
  · rfl
  · rfl

/-- C2 (amended): the Timer5 ISRs (`main.cpp`, `part_001`, `part_002`)
use the inclusive window `150 ≤ pulse_us ≤ 23500`: outside it the
published sample is invalid (`distance_cm = 0`), inside it
`distance_cm = pulse_us / 58` with integer truncation, exactly as the
claim states.  The Timer1 ISR (`part_000`) instead uses the strict
window `150 < pulse_us < 23500` and the formula
`distance_cm = (pulse_us * 17) / 1000`, which differs from
`pulse_us / 58` (for instance at `pulse_us = 23000`: 391 versus 396). -/
theorem C2_validity_window (us : Nat) :
    (us < 150 ∨ 23500 < us → distance_update_mega us = 0) ∧
    (150 ≤ us → us ≤ 23500 → distance_update_mega us = us / 58) ∧
    (us ≤ 150 ∨ 23500 ≤ us → distance_update_uno us = 0) ∧
    (150 < us → us < 23500 → distance_update_uno us = us * 17 / 1000) := by
  refine ⟨fun h => ?_, fun h1 h2 => ?_, fun h => ?_, fun h1 h2 => ?_⟩
  · unfold distance_update_mega
    rw [if_neg (by omega)]
  · unfold distance_update_mega
    rw [if_pos ⟨h1, h2⟩]
  · unfold distance_update_uno
    rw [if_neg (by omega)]
  · unfold distance_update_uno
    rw [if_pos ⟨h1, h2⟩]

/-- C2 witness: 149 µs is invalid on the Mega, 1160 µs gives 20 cm on the
Mega, 23501 µs is invalid on the Uno, 23000 µs gives 391 cm on the Uno. -/
theorem C2_validity_window_witness :
    distance_update_mega 149 = 0 ∧ distance_update_mega 1160 = 20 ∧
    distance_update_uno 23501 = 0 ∧ distance_update_uno 23000 = 391 := by
  refine ⟨(C2_validity_window 149).1 (Or.inl (by decide)),
    ((C2_validity_window 1160).2.1 (by decide) (by decide)).trans (by decide),
    (C2_validity_window 23501).2.2.1 (Or.inr (by decide)),
    ((C2_validity_window 23000).2.2.2 (by decide) (by decide)).trans (by decide)⟩

/-- `get_filtered_distance` from `src/src/main.cpp` (lines 517-544),
identical in `part_001`: iterate the ring buffer, sum and count the
entries strictly greater than zero; if at least one entry is valid
return `sum / valid_count`, otherwise fall back to the latest raw
`distance_cm` value.  The buffer is `distance_buffer[DISTANCE_SAMPLES]`
with `DISTANCE_SAMPLES = 3`; it is passed here explicitly, together
with the global `distance_cm`. -/
def get_filtered_distance (buf : List Nat) (distance_cm : Nat) : Nat :=
  let sum := buf.foldl (fun s d => if 0 < d then s + d else s) 0
  let valid_count := buf.foldl (fun c d => if 0 < d then c + 1 else c) 0
  if 0 < valid_count then sum / valid_count else distance_cm

/-- The running sum over the buffer equals the accumulator plus the sum of
the strictly positive entries. -/
theorem foldl_sum_pos (buf : List Nat) (a : Nat) :
    buf.foldl (fun s d => if 0 < d then s + d else s) a
      = a + (buf.filter (fun d => decide (0 < d))).sum := by
  induction buf generalizing a with
  | nil => simp
  | cons x xs ih =>
    by_cases hx : 0 < x
    · simp [hx, ih, List.filter_cons]
      omega
    · simp [hx, ih, List.filter_cons]

/-- The running count over the buffer equals the accumulator plus the
number of strictly positive entries. -/
theorem foldl_count_pos (buf : List Nat) (a : Nat) :
    buf.foldl (fun c d => if 0 < d then c + 1 else c) a
      = a + (buf.filter (fun d => decide (0 < d))).length := by
  induction buf generalizing a with
  | nil => simp
  | cons x xs ih =>
    by_cases hx : 0 < x
    · simp [hx, ih, List.filter_cons]
      omega
    · simp [hx, ih, List.filter_cons]

/-- C3: for every state of the 3-slot distance ring buffer with at least
one strictly positive entry, `get_filtered_distance` returns the integer
quotient of the sum of the strictly positive entries by their count
(truncating division), whatever the latest raw sample is. -/
theorem C3_filter_average (buf : List Nat) (distance_cm : Nat)
    (hlen : buf.length = 3) (hpos : ∃ x ∈ buf, 0 < x) :
    get_filtered_distance buf distance_cm
      = (buf.filter (fun d => decide (0 < d))).sum
          / (buf.filter (fun d => decide (0 < d))).length := by
  obtain ⟨x, hx, hxpos⟩ := hpos
  have hmem : x ∈ buf.filter (fun d => decide (0 < d)) :=
    List.mem_filter.mpr ⟨hx, by simpa using hxpos⟩
  have hne : (buf.filter (fun d => decide (0 < d))).length ≠ 0 := by
    intro h
    rw [List.length_eq_zero] at h
    rw [h] at hmem
    exact absurd hmem (List.not_mem_nil x)
  unfold get_filtered_distance
  rw [foldl_sum_pos, foldl_count_pos]
  simp only [Nat.zero_add]
  rw [if_pos (Nat.pos_of_ne_zero hne)]

/-- C3 witness: ring contents `[12, 0, 14]` (one invalid slot) average to
`(12 + 14) / 2 = 13`, not `26 / 3 = 8`. -/
theorem C3_filter_average_witness :
    get_filtered_distance [12, 0, 14] 7 = 13 := by
  exact (C3_filter_average [12, 0, 14] 7 (by decide)
    ⟨12, by simp, by decide⟩).trans (by decide)

/-- C4: `get_filtered_distance` is a total function; when every ring
entry is zero (no valid sample ever stored) it returns the latest raw
`distance_cm` value unchanged — which may itself be zero. -/
theorem C4_filter_fallback (buf : List Nat) (distance_cm : Nat)
    (hzero : ∀ x ∈ buf, x = 0) :
    get_filtered_distance buf distance_cm = distance_cm := by
  have hfil : buf.filter (fun d => decide (0 < d)) = [] := by
    rw [List.filter_eq_nil_iff]
    intro a ha
    have := hzero a ha
    simp [this]
  unfold get_filtered_distance
  rw [foldl_count_pos]
  simp [hfil]

/-- C4 witness: an all-zero ring with latest raw sample 0 yields 0; an
all-zero ring with a first-ever valid latest raw sample of 20 yields 20. -/
theorem C4_filter_fallback_witness :
    get_filtered_distance [0, 0, 0] 0 = 0 ∧
    get_filtered_distance [0, 0, 0] 20 = 20 := by
  exact ⟨C4_filter_fallback [0, 0, 0] 0 (by decide),
    C4_filter_fallback [0, 0, 0] 20 (by decide)⟩

/-- State touched by the HC-SR04 machinery of `src/src/main.cpp`: the
volatile globals (`edge_count`, `measurement_ready`, `pulse_start`,
`distance_cm`), the filter ring (`distance_buffer`, `distance_index`)
and the hardware registers the code manipulates (`ICF5` pending flag,
`TCNT5` counter, `ICES5` edge-select bit). -/
structure HCSR04State where
  edge_count : Nat
  measurement_ready : Nat
  pulse_start : Nat
  distance_cm : Nat
  distance_buffer : List Nat
  distance_index : Nat
  icf_pending : Bool
  tcnt : Nat
  ices_rising : Bool
deriving Repr, DecidableEq

/-- State after startup: globals zero-initialised, then
`init_timer5_input_capture()` (`main.cpp` lines 311-337) resets the
counter, selects rising-edge capture and sets `edge_count = 0`. -/
def init_state : HCSR04State :=
  { edge_count := 0, measurement_ready := 0, pulse_start := 0,
    distance_cm := 0, distance_buffer := [0, 0, 0], distance_index := 0,
    icf_pending := false, tcnt := 0, ices_rising := true }

/-- `trigger_hcsr04()` from `src/src/main.cpp` (lines 346-381): resets
`edge_count` and `measurement_ready`, clears the pending input-capture
flag (`TIFR5 = (1 << ICF5)`), resets `TCNT5`, selects rising-edge
capture (`TCCR5B |= (1 << ICES5)`), then emits the 10 µs trigger pulse
(pure I/O, no state of this model). -/
def trigger_hcsr04 (s : HCSR04State) : HCSR04State :=
  { s with
    edge_count := 0, measurement_ready := 0, icf_pending := false,
    tcnt := 0, ices_rising := true }

/-- `ISR(TIMER5_CAPT_vect)` from `src/src/main.cpp` (lines 393-504).
`icr` is the latched `ICR5` value of this capture event.  With
`edge_count = 0` the rising edge is recorded; with `edge_count = 1` the
pulse width is computed (`pulse_ticks_mega`), halved to microseconds
(`>> 1`), validated, and on success the ring slot at `distance_index`
is overwritten and the cursor advanced modulo `DISTANCE_SAMPLES = 3`. -/
def timer5_capt_isr (s : HCSR04State) (icr : Nat) : HCSR04State :=
  if s.edge_count = 0 then
    { s with pulse_start := icr, edge_count := 1, ices_rising := false }
  else if s.edge_count = 1 then
    let pulse_us := pulse_ticks_mega s.pulse_start icr / 2
    if 150 ≤ pulse_us ∧ pulse_us ≤ 23500 then
      { s with
        distance_buffer := s.distance_buffer.set s.distance_index (pulse_us / 58),
        distance_index := (s.distance_index + 1) % 3,
        distance_cm := pulse_us / 58,
        measurement_ready := 1, edge_count := 0, ices_rising := true }
    else
      { s with
        distance_cm := 0, measurement_ready := 1, edge_count := 0,
        ices_rising := true }
  else
    s

/-- States reachable from startup by any interleaving of
`trigger_hcsr04()` calls and capture interrupts. -/
inductive Reachable : HCSR04State → Prop
  | init : Reachable init_state
  | trig {s} : Reachable s → Reachable (trigger_hcsr04 s)
  | capt {s} (icr : Nat) : Reachable s → Reachable (timer5_capt_isr s icr)

/-- C5: `trigger_hcsr04()` called from any state — including mid-cycle
with `edge_count = 1` (AWAITING_FALLING) — leaves the machine in
AWAITING_RISING (`edge_count = 0`), with the ready flag and the pending
capture-interrupt flag cleared, the hardware counter reset and
rising-edge capture selected; and the distance published by the next
complete echo cycle depends only on that cycle's two captured edge
values, never on a stale `pulse_start` from the interrupted cycle. -/
theorem C5_trigger_reset (s : HCSR04State) (t1 t2 : Nat) :
    (trigger_hcsr04 s).edge_count = 0 ∧
    (trigger_hcsr04 s).measurement_ready = 0 ∧
    (trigger_hcsr04 s).icf_pending = false ∧
    (trigger_hcsr04 s).tcnt = 0 ∧
    (trigger_hcsr04 s).ices_rising = true ∧
    (timer5_capt_isr (timer5_capt_isr (trigger_hcsr04 s) t1) t2).distance_cm
      = distance_update_mega (pulse_ticks_mega t1 t2 / 2) := by
  refine ⟨rfl, rfl, rfl, rfl, rfl, ?_⟩
  unfold trigger_hcsr04 timer5_capt_isr distance_update_mega
  by_cases h : 150 ≤ pulse_ticks_mega t1 t2 / 2 ∧ pulse_ticks_mega t1 t2 / 2 ≤ 23500
  · simp [h]
  · simp [h]

/-- C9: (1) in every reachable program state the ring-buffer write
cursor `distance_index` stays in `[0, 3)`; (2) every append performed by
the capture ISR advances the cursor modulo 3; (3) `get_filtered_distance`
is insensitive to zero/invalid entries: dropping them from the buffer
does not change its result, so they are never counted toward the
average. -/
theorem C9_ring_cursor_invariant :
    (∀ s, Reachable s → s.distance_index < 3) ∧
    (∀ (s : HCSR04State) (t : Nat), s.edge_count = 1 →
      150 ≤ pulse_ticks_mega s.pulse_start t / 2 →
      pulse_ticks_mega s.pulse_start t / 2 ≤ 23500 →
      (timer5_capt_isr s t).distance_index = (s.distance_index + 1) % 3) ∧
    (∀ (buf : List Nat) (d : Nat),
      get_filtered_distance buf d
        = get_filtered_distance (buf.filter (fun x => decide (0 < x))) d) := by
  refine ⟨?_, ?_, ?_⟩
  · intro s hs
    induction hs with
    | init => decide
    | trig _ ih => exact ih
    | capt icr _ ih =>
      rename_i s' _
      unfold timer5_capt_isr
      by_cases h0 : s'.edge_count = 0
      · simpa [h0] using ih
      · by_cases h1 : s'.edge_count = 1
        · by_cases hw : 150 ≤ pulse_ticks_mega s'.pulse_start icr / 2 ∧
              pulse_ticks_mega s'.pulse_start icr / 2 ≤ 23500
          · simp [h0, h1, hw]
            omega
          · simpa [h0, h1, hw] using ih
        · simpa [h0, h1] using ih
  · intro s t h1 hlo hhi
    unfold timer5_capt_isr
    simp [h1, hlo, hhi]
  · intro buf d
    have hfil : (buf.filter (fun x => decide (0 < x))).filter
        (fun x => decide (0 < x)) = buf.filter (fun x => decide (0 < x)) := by
      rw [List.filter_filter]
      congr 1
      funext a
      rw [Bool.and_self]
    unfold get_filtered_distance
    rw [foldl_sum_pos, foldl_count_pos, foldl_sum_pos, foldl_count_pos, hfil]

/-- C9 witness: the cursor bound at the startup state; a concrete valid
append from slot 0 advancing the cursor to 1; and the filter ignoring
the zero slot of `[12, 0, 14]`. -/
theorem C9_ring_cursor_invariant_witness :
    init_state.distance_index < 3 ∧
    (timer5_capt_isr
        { init_state with edge_count := 1, pulse_start := 0 } 1000).distance_index
      = (0 + 1) % 3 ∧
    get_filtered_distance [12, 0, 14] 5 = get_filtered_distance [12, 14] 5 := by
  refine ⟨C9_ring_cursor_invariant.1 init_state Reachable.init, ?_, ?_⟩
  · exact C9_ring_cursor_invariant.2.1
      { init_state with edge_count := 1, pulse_start := 0 } 1000
      rfl (by decide) (by decide)
  · exact (C9_ring_cursor_invariant.2.2 [12, 0, 14] 5).trans (by decide)

/-- C10: when the completed echo measurement is out of the validity
window, the ISR's else-branch (`main.cpp` lines 485-492) touches only
the latest sample: `distance_cm` becomes 0 and the ready flag is set,
while the ring contents, the write cursor and `pulse_start` are left
unchanged — invalid samples never enter the filter. -/
theorem C10_invalid_sample_frame (s : HCSR04State) (t : Nat)
    (h1 : s.edge_count = 1)
    (hw : pulse_ticks_mega s.pulse_start t / 2 < 150 ∨
      23500 < pulse_ticks_mega s.pulse_start t / 2) :
    (timer5_capt_isr s t).distance_buffer = s.distance_buffer ∧
    (timer5_capt_isr s t).distance_index = s.distance_index ∧
    (timer5_capt_isr s t).distance_cm = 0 ∧
    (timer5_capt_isr s t).measurement_ready = 1 ∧
    (timer5_capt_isr s t).edge_count = 0 ∧
    (timer5_capt_isr s t).pulse_start = s.pulse_start := by
  unfold timer5_capt_isr
  have hnw : ¬ (150 ≤ pulse_ticks_mega s.pulse_start t / 2 ∧
      pulse_ticks_mega s.pulse_start t / 2 ≤ 23500) := by omega
  simp [h1, hnw]

/-- C10 witness: a 10-tick (5 µs) pulse ending at `ICR5 = 10` from a
state holding ring `[1, 2, 3]` at cursor 2: the ring and cursor survive,
the latest sample becomes 0. -/
theorem C10_invalid_sample_frame_witness :
    (timer5_capt_isr
        { edge_count := 1, measurement_ready := 0, pulse_start := 0,
          distance_cm := 7, distance_buffer := [1, 2, 3], distance_index := 2,
          icf_pending := false, tcnt := 0, ices_rising := false } 10).distance_buffer
      = [1, 2, 3] ∧
    (timer5_capt_isr
        { edge_count := 1, measurement_ready := 0, pulse_start := 0,
          distance_cm := 7, distance_buffer := [1, 2, 3], distance_index := 2,
          icf_pending := false, tcnt := 0, ices_rising := false } 10).distance_cm
      = 0 := by
  have h := C10_invalid_sample_frame
    { edge_count := 1, measurement_ready := 0, pulse_start := 0,
      distance_cm := 7, distance_buffer := [1, 2, 3], distance_index := 2,
      icf_pending := false, tcnt := 0, ices_rising := false } 10
    rfl (Or.inl (by decide))
  exact ⟨h.1, h.2.2.1⟩

/-- System status enum.  `part_001` calls it `SystemStatus`
(`STATUS_EMPTY`, `STATUS_HALF_FULL`, `STATUS_OVERFLOW_WARNING`,
`STATUS_CONTAMINATED`); `part_002` calls it `Status_t` with `OVERFLOW`
for the third constructor.  One inductive serves both. -/
inductive SystemStatus where
  | EMPTY
  | HALF_FULL
  | OVERFLOW_WARNING
  | CONTAMINATED
deriving Repr, DecidableEq

/-- Per-iteration outputs of the Mega decision logic: the arguments
passed to `control_LEDS(red, yellow, green)` and `control_buzzer(state)`
(for the active-low LEDs, argument 0 = LED on; the contamination branch
passes buzzer argument 0, driving pin PE3 low), plus `current_status`
and `alert_active` as maintained by `part_001`. -/
structure MegaOutputs where
  red : Nat
  yellow : Nat
  green : Nat
  buzzer : Nat
  status : SystemStatus
  alert : Nat
deriving Repr, DecidableEq

/-- Decision logic of the Mega main loop, `src/unnamed/part_001`
(lines 273-305); `src/src/main.cpp` (lines 239-282) is identical except
that it has no status/alert variables and leaves the buzzer untouched in
the half-full branch.  The float thresholds `7.5f` and `15.0f` compare
against an integer distance, so `distance <= 7.5f` is `distance ≤ 7` and
`distance > 7.5f` is `8 ≤ distance` (the `uint32 → float` conversion is
exact in this range). -/
def main_decision_mega (water_level distance : Nat) : MegaOutputs :=
  if 100 < water_level then
    { red := 0, yellow := 1, green := 1, buzzer := 0,
      status := SystemStatus.CONTAMINATED, alert := 1 }
  else if 0 < distance ∧ distance ≤ 7 then
    { red := 1, yellow := 1, green := 0, buzzer := 0,
      status := SystemStatus.OVERFLOW_WARNING, alert := 1 }
  else if 8 ≤ distance ∧ distance ≤ 15 then
    { red := 1, yellow := 0, green := 1, buzzer := 1,
      status := SystemStatus.HALF_FULL, alert := 0 }
  else
    { red := 1, yellow := 1, green := 1, buzzer := 1,
      status := SystemStatus.EMPTY, alert := 0 }

/-- Per-iteration outputs of the configurable-height variant: arguments
of `set_leds(red, yellow, green)` and `set_buzzer(on)` in
`src/unnamed/part_002` (there, argument 1 = on: the LEDs and buzzer are
active-low and the helpers invert), plus status and alert. -/
structure DynOutputs where
  status : SystemStatus
  red : Nat
  yellow : Nat
  green : Nat
  buzzer : Nat
  alert : Nat
deriving Repr, DecidableEq

/-- Decision logic of `src/unnamed/part_002` main loop (lines 138-165):
contamination when `water_adc > 100`, else overflow when
`level_percent >= 50`, else half-full when `level_percent > 5`, else
empty. -/
def main_decision_dyn (water_adc level_percent : Nat) : DynOutputs :=
  if 100 < water_adc then
    { status := SystemStatus.CONTAMINATED, red := 1, yellow := 0, green := 0,
      buzzer := 1, alert := 1 }
  else if 50 ≤ level_percent then
    { status := SystemStatus.OVERFLOW_WARNING, red := 0, yellow := 0, green := 1,
      buzzer := 1, alert := 1 }
  else if 5 < level_percent then
    { status := SystemStatus.HALF_FULL, red := 0, yellow := 1, green := 0,
      buzzer := 0, alert := 0 }
  else
    { status := SystemStatus.EMPTY, red := 0, yellow := 0, green := 0,
      buzzer := 0, alert := 0 }

/-- Decision logic of the ATmega328P variant, `src/unnamed/part_000`
(lines 66-82), as the pair (`control_LEDS` arguments, `control_buzzer`
argument).  Its first branch — the one commented
`Water contamination detected - RED LED + BUZZER`, with outputs
`((0,1,1),1)` — fires when `water_level < 100`: the comparison is the
reverse of the `> 100` used by the other variants. -/
def main_decision_uno (water_level distance : Nat) : (Nat × Nat × Nat) × Nat :=
  if water_level < 100 then ((0, 1, 1), 1)
  else if 0 < distance ∧ distance ≤ 7 then ((1, 1, 0), 1)
  else if 8 ≤ distance ∧ distance ≤ 15 then ((1, 0, 1), 0)
  else ((1, 1, 1), 0)

/-- C6 counterexample: the claim asserts that a conductivity reading of
150 (above threshold 100) yields the contamination alert in every cited
variant, regardless of distance.  In `src/unnamed/part_000` the
water-alert branch tests `water_level < 100`, so at reading 150 and
distance 10 the half-full branch runs instead: the outputs are
`((1,0,1),0)`, not that variant's water-alert outputs `((0,1,1),1)`. -/
theorem C6_uno_threshold_counterexample :
    main_decision_uno 150 10 = ((1, 0, 1), 0) ∧
    main_decision_uno 150 10 ≠ ((0, 1, 1), 1) := by
  constructor
  · rfl
  · decide

/-- C6 (amended): in the variants whose contamination test is
`water_level > 100` (`main.cpp`, `part_001`, `part_002`), every loop
iteration with a conductivity reading above 100 produces status
CONTAMINATED and alert = 1 regardless of distance or fill percentage,
with the red LED selected and the buzzer driven to its alert level
(buzzer argument 0 in the Mega variants — pin PE3 low — and
`set_buzzer(1)` in `part_002`, also pin PE3 low).  In `part_000` the
comparison is inverted (`< 100`), so a reading above 100 never produces
that variant's red-LED/buzzer alert outputs. -/
theorem C6_contamination_priority (w d p : Nat) (hw : 100 < w) :
    main_decision_mega w d
      = { red := 0, yellow := 1, green := 1, buzzer := 0,
          status := SystemStatus.CONTAMINATED, alert := 1 } ∧
    main_decision_dyn w p
      = { status := SystemStatus.CONTAMINATED, red := 1, yellow := 0, green := 0,
          buzzer := 1, alert := 1 } ∧
    main_decision_uno w d ≠ ((0, 1, 1), 1) := by
  refine ⟨?_, ?_, ?_⟩
  · unfold main_decision_mega
    rw [if_pos hw]
  · unfold main_decision_dyn
    rw [if_pos hw]
  · unfold main_decision_uno
    rw [if_neg (by omega)]
    split
    · decide
    · split
      · decide
      · decide

/-- C6 witness: reading 150, distance 10, fill percentage 50. -/
theorem C6_contamination_priority_witness :
    main_decision_mega 150 10
      = { red := 0, yellow := 1, green := 1, buzzer := 0,
          status := SystemStatus.CONTAMINATED, alert := 1 } ∧
    main_decision_dyn 150 50
      = { status := SystemStatus.CONTAMINATED, red := 1, yellow := 0, green := 0,
          buzzer := 1, alert := 1 } ∧
    main_decision_uno 150 10 ≠ ((0, 1, 1), 1) :=
  C6_contamination_priority 150 10 50 (by decide)

/-- Fill-percentage computation of the `src/unnamed/part_002` main loop
(lines 116-136): `L = H - D` with `L = 0` when `distance >= height`,
`percent = (L * 100) / H` when `H > 0` (else 0), then capped at 100. -/
def level_percent (distance height : Nat) : Nat :=
  let liquid_level_cm := if height ≤ distance then 0 else height - distance
  let p := if 0 < height then liquid_level_cm * 100 / height else 0
  if 100 < p then 100 else p

/-- The final clamp of the percentage computation never exceeds 100. -/
theorem clamp_le_100 (p : Nat) : (if 100 < p then 100 else p) ≤ 100 := by
  split <;> omega

/-- C7: in the configurable-tank-height variant, whenever the
conductivity reading is not above 100 and the measured distance is at
least the tank height, the liquid level is taken as 0, the fill
percentage is 0, and the decision is status EMPTY with alert = 0 and all
LED/buzzer outputs off (`set_leds(0,0,0)`, `set_buzzer(0)`); moreover
the percentage is always capped at 100. -/
theorem C7_empty_when_distance_exceeds_height (w d h : Nat)
    (hw : ¬ 100 < w) (hdh : h ≤ d) :
    level_percent d h = 0 ∧
    main_decision_dyn w (level_percent d h)
      = { status := SystemStatus.EMPTY, red := 0, yellow := 0, green := 0,
          buzzer := 0, alert := 0 } ∧
    (∀ d' h', level_percent d' h' ≤ 100) := by
  have hlp : level_percent d h = 0 := by
    unfold level_percent
    simp [hdh]
  refine ⟨hlp, ?_, ?_⟩
  · rw [hlp]
    unfold main_decision_dyn
    rw [if_neg hw, if_neg (by omega), if_neg (by omega)]
  · intro d' h'
    exact clamp_le_100 _

/-- C7 witness: conductivity 50, filtered distance 20 cm, tank height
15 cm. -/
theorem C7_empty_when_distance_exceeds_height_witness :
    level_percent 20 15 = 0 ∧
    main_decision_dyn 50 (level_percent 20 15)
      = { status := SystemStatus.EMPTY, red := 0, yellow := 0, green := 0,
          buzzer := 0, alert := 0 } ∧
    level_percent 3 15 ≤ 100 := by
  have h := C7_empty_when_distance_exceeds_height 50 20 15 (by decide) (by decide)
  exact ⟨h.1, h.2.1, h.2.2 3 15⟩

/-- `ISR(USART1_RX_vect)` from `src/unnamed/part_002` (lines 362-381).
The state is the list of committed bytes `rx_buffer[0 .. rx_index)`.
A newline or carriage return with a non-empty buffer terminates a
command (returned as `some`); digits are appended while `rx_index`
is below `sizeof(rx_buffer) - 1 = 7`, with a reset to 0 on overflow;
every other byte — including a minus sign — is silently discarded. -/
def usart1_rx_isr (st : List Char) (c : Char) : List Char × Option (List Char) :=
  if c = '\n' ∨ c = '\r' then
    if 0 < st.length then ([], some st) else (st, none)
  else if '0' ≤ c ∧ c ≤ '9' then
    if st.length < 7 then (st ++ [c], none) else ([], none)
  else
    (st, none)

/-- Feed a byte sequence through the RX interrupt, collecting the
completed commands in order. -/
def rx_feed (input : List Char) (st : List Char) : List Char × List (List Char) :=
  match input with
  | [] => (st, [])
  | c :: rest =>
    let step := usart1_rx_isr st c
    let tail := rx_feed rest step.1
    (tail.1, step.2.toList ++ tail.2)

/-- `atoi` applied to the command buffer (`part_002` line 98).  The RX
interrupt only ever commits decimal digits, so on every buffer the main
loop can see, `atoi` is plain decimal evaluation; the theorems below
restrict to values fitting `int16_t`, where `atoi`'s behaviour is
defined. -/
def atoi_digits (cs : List Char) : Nat :=
  cs.foldl (fun a c => a * 10 + (c.toNat - 48)) 0

/-- Height-command handling of the `part_002` main loop (lines 90-107):
parse the completed command with `atoi`; if the value lies strictly
between 0 and 500, apply it to `container_height_cm` and emit the
acknowledgement `H:<value>\n` (`uart_send_string`/`uart_send_uint`);
otherwise leave the height unchanged and emit nothing. -/
def process_command (height : Nat) (cmd : List Char) : Nat × Option String :=
  let new_height := atoi_digits cmd
  if 0 < new_height ∧ new_height < 500 then
    (new_height, some ("H:" ++ Nat.repr new_height ++ "\n"))
  else
    (height, none)

/-- Feeding a concatenation is feeding the parts in sequence. -/
theorem rx_feed_append (a b : List Char) (st : List Char) :
    rx_feed (a ++ b) st
      = ((rx_feed b (rx_feed a st).1).1,
          (rx_feed a st).2 ++ (rx_feed b (rx_feed a st).1).2) := by
  induction a generalizing st with
  | nil => simp [rx_feed]
  | cons c rest ih =>
    simp only [List.cons_append, rx_feed, List.append_eq, ih, List.append_assoc]

/-- Feeding a digit sequence that fits the buffer just accumulates it
and completes no command. -/
theorem rx_feed_digits (ds : List Char) (st : List Char)
    (hdig : ∀ c ∈ ds, '0' ≤ c ∧ c ≤ '9')
    (hlen : st.length + ds.length ≤ 7) :
    rx_feed ds st = (st ++ ds, []) := by
  induction ds generalizing st with
  | nil => simp [rx_feed]
  | cons c rest ih =>
    have hc := hdig c (List.mem_cons_self c rest)
    have hnl : ¬ (c = '\n' ∨ c = '\r') := by
      rintro (h | h) <;> subst h <;> revert hc <;> decide
    have hst : st.length < 7 := by
      simp only [List.length_cons] at hlen
      omega
    have hrest : (st ++ [c]).length + rest.length ≤ 7 := by
      simp only [List.length_append, List.length_cons, List.length_nil]
      simp only [List.length_cons] at hlen
      omega
    simp only [rx_feed, usart1_rx_isr, if_neg hnl, if_pos hc, if_pos hst,
      ih (st ++ [c]) (fun x hx => hdig x (List.mem_cons_of_mem c hx)) hrest,
      Option.toList_none, List.nil_append, List.append_assoc,
      List.singleton_append]

/-- C8 counterexample: the claim states that inbound `"-5"` is rejected
with `container_height_cm` unchanged and no acknowledgement.  The RX
interrupt of `part_002` silently discards the minus sign, so the
completed command is `"5"`; `atoi` yields 5, which is in range, so with
current height 10 the command is applied (height becomes 5) and the
acknowledgement `H:5\n` is emitted. -/
theorem C8_negative_command_counterexample :
    (rx_feed ['-', '5', '\n'] []).2 = [['5']] ∧
    process_command 10 ['5'] = (5, some "H:5\n") ∧
    (5, some ("H:5\n" : String)) ≠ ((10 : Nat), (none : Option String)) := by
  refine ⟨rfl, rfl, by decide⟩

/-- C8 (amended): the RX interrupt discards every non-digit byte, so a
newline-terminated line whose digits form the string `ds` (at most 7
digits, value within `int16_t`) completes exactly the command `ds`; the
command is applied if and only if its digit value is strictly between
0 and 500, in which case `container_height_cm` becomes that value and
the acknowledgement `H:<value>\n` is emitted; otherwise the height is
unchanged and nothing is emitted — no partial apply, no crash.  In
particular a line containing a minus sign is treated as its digit
string (`"-5"` acts as `"5"`), and `"9999"` is rejected unchanged. -/
theorem C8_height_command (height : Nat) (ds : List Char)
    (hdig : ∀ c ∈ ds, '0' ≤ c ∧ c ≤ '9')
    (hlen : ds.length ≤ 7) (hne : ds ≠ [])
    (hfit : atoi_digits ds ≤ 32767) :
    (rx_feed (ds ++ ['\n']) []).2 = [ds] ∧
    (0 < atoi_digits ds ∧ atoi_digits ds < 500 →
      process_command height ds
        = (atoi_digits ds, some ("H:" ++ Nat.repr (atoi_digits ds) ++ "\n"))) ∧
    (¬ (0 < atoi_digits ds ∧ atoi_digits ds < 500) →
      process_command height ds = (height, none)) := by
  refine ⟨?_, fun h => ?_, fun h => ?_⟩
  · have hpos : 0 < ds.length := List.length_pos.mpr hne
    rw [rx_feed_append, rx_feed_digits ds [] hdig (by simpa using hlen)]
    simp [rx_feed, usart1_rx_isr, hpos]
  · unfold process_command
    rw [if_pos h]
  · unfold process_command
    rw [if_neg h]

/-- C8 witness: inbound `"200"` with current height 10 is applied with
acknowledgement `H:200\n`; inbound `"9999"` is rejected unchanged with
no acknowledgement. -/
theorem C8_height_command_witness :
    (rx_feed ['2', '0', '0', '\n'] []).2 = [['2', '0', '0']] ∧
    process_command 10 ['2', '0', '0'] = (200, some "H:200\n") ∧
    process_command 10 ['9', '9', '9', '9'] = (10, none) := by
  have h1 := C8_height_command 10 ['2', '0', '0']
    (by decide) (by decide) (by decide) (by decide)
  have h2 := C8_height_command 10 ['9', '9', '9', '9']
    (by decide) (by decide) (by decide) (by decide)
  exact ⟨h1.1, (h1.2.1 (by decide)).trans (by decide),
    h2.2.2 (by decide)⟩

end WaterTank
